import Mathlib

/-!
Shallow embedding of `tests/siocoutq.c` from rds-tools: the RDS
reachability probing tool.  Socket system calls are modelled by oracles:
a send oracle gives each `sendto` call's outcome, a query oracle gives
each `TIOCOUTQ` ioctl's result.  Timestamps (`gettimeofday`) are inputs.
All loops are translated with an explicit iteration index; the spin loop
additionally carries a fuel argument fixed to the 100000 ceiling, which
makes its zero-fuel fallback unreachable from the entry point.
-/

/-- Result of one `ioctl(fd, TIOCOUTQ, &pend)` query: the pending outbound
byte count on success, or the `errno` of a failing ioctl. -/
inductive QueryResult where
  | ok (pend : Int)
  | err (errno : Nat)
  deriving DecidableEq

/-- Loop of `spin_on_one_socket` (siocoutq.c:118-132).  `q i` is the result
of the query made in iteration `i`; `i` counts completed iterations, so the
counter value after the increment is `i + 1`.  The C code is a do-while:
on a failing ioctl return `-errno`; otherwise increment and continue while
the pending count is non-zero and the counter is below 100000.  `fuel`
bounds the recursion; at the entry point it is 100000, so the zero-fuel
clause (which returns the counter like a falsified loop condition) is never
reached. -/
def spin_from (q : Nat → QueryResult) : Nat → Nat → Int
  | i, 0 =>
    match q i with
    | QueryResult.err e => -(e : Int)
    | QueryResult.ok _ => (i : Int) + 1
  | i, fuel + 1 =>
    match q i with
    | QueryResult.err e => -(e : Int)
    | QueryResult.ok pend =>
      if pend ≠ 0 ∧ i + 1 < 100000 then spin_from q (i + 1) fuel
      else (i : Int) + 1

/-- `spin_on_one_socket` (siocoutq.c:118-132): busy-poll the outbound queue,
returning the spin counter, or `-errno` if a query fails. -/
def spin_on_one_socket (q : Nat → QueryResult) : Int :=
  spin_from q 0 100000

/-- `struct timeval`: seconds and microseconds. -/
structure timeval where
  tv_sec : Int
  tv_usec : Int
  deriving DecidableEq

/-- `usec_sub` (siocoutq.c:98-102): returns `a - b` in microseconds.
Modelled over `ℤ`; this is the C code's behaviour in the regime where the
64-bit arithmetic does not overflow (signed overflow in the C expression
is undefined behaviour). -/
def usec_sub (a b : timeval) : Int :=
  (a.tv_sec - b.tv_sec) * 1000000 + a.tv_usec - b.tv_usec

/-- Outcome of one `sendto` call: success (the C call returns 0 for the
zero-length message) or failure with the resulting `errno`. -/
inductive SendOutcome where
  | ok
  | fail (errno : Nat)
  deriving DecidableEq

/-- Loop of `send_on_one_socket` (siocoutq.c:104-116) starting at loop
index `idx` with `n` iterations remaining; `σ j` is the outcome of the
`sendto` call at loop index `j`.  Returns `(ret, idx-at-exit)`: `ret` is
the C function's return value (0, or the `errno` of the first failing
`sendto`) and the second component is the number of successful `sendto`
calls (the loop index at which the loop stopped). -/
def send_on_one_socket_from (σ : Nat → SendOutcome) : Nat → Nat → Nat × Nat
  | idx, 0 => (0, idx)
  | idx, n + 1 =>
    match σ idx with
    | SendOutcome.ok => send_on_one_socket_from σ (idx + 1) n
    | SendOutcome.fail e => (e, idx)

/-- `send_on_one_socket` (siocoutq.c:104-116): issue `per_sock` zero-length
sends; stop at the first failure. -/
def send_on_one_socket (σ : Nat → SendOutcome) (per_sock : Nat) : Nat × Nat :=
  send_on_one_socket_from σ 0 per_sock

/-- Observable result of `send_on_n_sockets_seq`: the C return value `ret`
(0 or the first failing errno), the number of `sendto` calls issued on each
socket of the group (in group order, one entry per socket), and the spin
counts printed (one per socket that spun). -/
structure SeqResult where
  ret : Nat
  sent : List Nat
  spins : List Int
  deriving DecidableEq

/-- Loop of `send_on_n_sockets_seq` (siocoutq.c:134-152) starting at socket
index `i` with `m` sockets remaining.  `σ s j` is the outcome of the j-th
`sendto` on socket `s`; `q s` is socket s's query oracle.  On a failing
socket the issued-send count is the successful sends plus the failing call;
sockets after the failure are not touched (their entries are 0).  The spin
step runs only when `use_siocoutq` is set and only after a socket's sends
all succeeded, exactly as in the C loop (`if (ret) break;` precedes it). -/
def send_on_n_sockets_from (use_siocoutq : Bool) (σ : Nat → Nat → SendOutcome)
    (q : Nat → Nat → QueryResult) (per_sock : Nat) : Nat → Nat → SeqResult
  | _, 0 => ⟨0, [], []⟩
  | i, m + 1 =>
    let r := send_on_one_socket (σ i) per_sock
    if r.1 ≠ 0 then ⟨r.1, (r.2 + 1) :: List.replicate m 0, []⟩
    else
      let rest := send_on_n_sockets_from use_siocoutq σ q per_sock (i + 1) m
      ⟨rest.ret, r.2 :: rest.sent,
        (if use_siocoutq then [spin_on_one_socket (q i)] else []) ++ rest.spins⟩

/-- `send_on_n_sockets_seq` (siocoutq.c:134-152): drive the whole socket
group in index order. -/
def send_on_n_sockets_seq (use_siocoutq : Bool) (σ : Nat → Nat → SendOutcome)
    (q : Nat → Nat → QueryResult) (n_socks per_sock : Nat) : SeqResult :=
  send_on_n_sockets_from use_siocoutq σ q per_sock 0 n_socks

/-- Summary printed by `run_test` (siocoutq.c:235-265): the socket count,
the elapsed milliseconds value `tdiff` (computed by the integer division
`usec_sub(&end, &start) / 1000`, truncation toward zero as in C, before
the assignment to `float`), the printed total packet count
`opt_count * nsockets`, and the function's return value (always 0). -/
structure RunReport where
  nsockets : Nat
  tdiff : Int
  total_packets : Nat
  exit_code : Nat
  deriving DecidableEq

/-- `run_test` (siocoutq.c:235-265): create the socket group, time the
scheduling phase between timestamps `t0` (start) and `t1` (end), and print
the summary.  Socket creation (`rds_socket`) either succeeds for all
`nsockets` sockets or exits the process; the success case is modelled. -/
def run_test (t0 t1 : timeval) (use_siocoutq : Bool) (σ : Nat → Nat → SendOutcome)
    (q : Nat → Nat → QueryResult) (nsockets opt_count : Nat) :
    RunReport × SeqResult :=
  let res := send_on_n_sockets_seq use_siocoutq σ q nsockets opt_count
  (⟨nsockets, Int.tdiv (usec_sub t1 t0) 1000, opt_count * nsockets, 0⟩, res)

/-- Address family of a parsed address; `parse_addr` (siocoutq.c:317-340)
only ever yields `AF_INET` or `AF_INET6`. -/
inductive AddrFamily where
  | inet
  | inet6
  deriving DecidableEq

/-- Fatal configuration errors raised by `main` before `run_test` runs. -/
inductive MainError where
  | familyMismatch
  deriving DecidableEq

/-- Group-size resolution in `main` (siocoutq.c:390-391):
`if (!num_sock_set && opt_count && opt_count < nsockets) nsockets = opt_count;`
where `nsockets` defaults to 8. -/
def resolve_nsockets (num_sock_set : Bool) (opt_count nsockets : Nat) : Nat :=
  if num_sock_set = false ∧ opt_count ≠ 0 ∧ opt_count < nsockets then opt_count
  else nsockets

/-- Tail of `main` (siocoutq.c:386-393) after option parsing: with an
explicitly set source (`src_set`), a source/destination family mismatch is
fatal (`die`) before `run_test` is ever entered, hence before any socket is
created; otherwise the group size is resolved and `run_test` runs. -/
def main_run (t0 t1 : timeval) (use_siocoutq : Bool) (σ : Nat → Nat → SendOutcome)
    (q : Nat → Nat → QueryResult) (src_set num_sock_set : Bool)
    (srcf dstf : AddrFamily) (opt_count nsockets : Nat) :
    Except MainError (RunReport × SeqResult) :=
  if src_set = true ∧ srcf ≠ dstf then Except.error MainError.familyMismatch
  else
    Except.ok (run_test t0 t1 use_siocoutq σ q
      (resolve_nsockets num_sock_set opt_count nsockets) opt_count)

/-! ### Helper lemmas about the drain-spin loop -/

/-- As long as every query succeeds, the spin counter is at least one more
than the iteration index it starts from. -/
theorem spin_from_lower (q : Nat → QueryResult)
    (hq : ∀ i, ∃ p, q i = QueryResult.ok p) :
    ∀ (fuel i : Nat), (i : Int) + 1 ≤ spin_from q i fuel := by
  intro fuel
  induction fuel with
  | zero =>
    intro i
    obtain ⟨p, hp⟩ := hq i
    simp [spin_from, hp]
  | succ f ih =>
    intro i
    obtain ⟨p, hp⟩ := hq i
    simp only [spin_from, hp]
    split
    · have h2 := ih (i + 1)
      have h3 : ((i : Int)) + 1 ≤ ((i + 1 : Nat) : Int) + 1 := by push_cast; omega
      exact le_trans h3 h2
    · exact le_refl _

/-- As long as every query succeeds, the spin counter never exceeds the
100000 ceiling when started below it. -/
theorem spin_from_upper (q : Nat → QueryResult)
    (hq : ∀ i, ∃ p, q i = QueryResult.ok p) :
    ∀ fuel i, i < 100000 → spin_from q i fuel ≤ 100000 := by
  intro fuel
  induction fuel with
  | zero =>
    intro i h
    obtain ⟨p, hp⟩ := hq i
    simp only [spin_from, hp]
    omega
  | succ f ih =>
    intro i h
    obtain ⟨p, hp⟩ := hq i
    simp only [spin_from, hp]
    split
    · next hc => exact ih (i + 1) hc.2
    · omega

/-- When every query succeeds with a positive pending count, the loop runs
to the ceiling exactly. -/
theorem spin_from_ceiling (q : Nat → QueryResult)
    (hq : ∀ i, ∃ p, q i = QueryResult.ok p ∧ 0 < p) :
    ∀ fuel i, i + fuel = 100000 → i < 100000 → spin_from q i fuel = 100000 := by
  intro fuel
  induction fuel with
  | zero => intro i h1 h2; omega
  | succ f ih =>
    intro i h1 h2
    obtain ⟨p, hp, hpos⟩ := hq i
    simp only [spin_from, hp]
    by_cases hc : i + 1 < 100000
    · rw [if_pos ⟨hpos.ne', hc⟩]
      exact ih (i + 1) (by omega) hc
    · rw [if_neg (fun hcc => hc hcc.2)]
      have h3 : i + 1 = 100000 := by omega
      omega

/-! ### Claims about the drain-spin loop -/

/-- C1: for every socket whose outbound-queue query never fails, the
drain-spin loop terminates: the returned spin count is at least 0 and
strictly below 100001, and if the queried pending byte count is positive at
every query the loop stops with the counter exactly at the 100000
ceiling. -/
theorem C1_spin_termination (q : Nat → QueryResult)
    (hok : ∀ i, ∃ p, q i = QueryResult.ok p) :
    0 ≤ spin_on_one_socket q ∧ spin_on_one_socket q < 100001 ∧
      ((∀ i p, q i = QueryResult.ok p → 0 < p) → spin_on_one_socket q = 100000) := by
  have h1 := spin_from_lower q hok 100000 0
  have h2 := spin_from_upper q hok 100000 0 (by omega)
  refine ⟨?_, ?_, ?_⟩
  · simp only [spin_on_one_socket]
    omega
  · simp only [spin_on_one_socket]
    omega
  · intro hpos
    have hq2 : ∀ i, ∃ p, q i = QueryResult.ok p ∧ 0 < p := by
      intro i
      obtain ⟨p, hp⟩ := hok i
      exact ⟨p, hp, hpos i p hp⟩
    simpa [spin_on_one_socket] using spin_from_ceiling q hq2 100000 0 (by omega) (by omega)

/-- Witness for C1: a socket whose query always succeeds with pending
count 1 spins to the ceiling. -/
theorem C1_spin_termination_witness :
    0 ≤ spin_on_one_socket (fun _ => QueryResult.ok 1) ∧
      spin_on_one_socket (fun _ => QueryResult.ok 1) < 100001 ∧
      spin_on_one_socket (fun _ => QueryResult.ok 1) = 100000 := by
  have h := C1_spin_termination (fun _ => QueryResult.ok 1) (fun _ => ⟨1, rfl⟩)
  refine ⟨h.1, h.2.1, h.2.2 ?_⟩
  intro i p hp
  simp only [QueryResult.ok.injEq] at hp
  omega

/-- C10: whenever every outbound-queue query succeeds, the drain-spin step
returns a strictly positive spin count (at least 1), even if the queue is
already empty at the first query: the counter is incremented once before
the loop condition is ever tested. -/
theorem C10_spin_positive (q : Nat → QueryResult)
    (hok : ∀ i, ∃ p, q i = QueryResult.ok p) :
    1 ≤ spin_on_one_socket q := by
  have h1 := spin_from_lower q hok 100000 0
  simp only [spin_on_one_socket]
  omega

/-- Witness for C10: a socket whose queue is already empty at the first
query still yields spin count at least 1. -/
theorem C10_spin_positive_witness :
    1 ≤ spin_on_one_socket (fun _ => QueryResult.ok 0) :=
  C10_spin_positive (fun _ => QueryResult.ok 0) (fun _ => ⟨0, rfl⟩)

/-! ### Helper lemmas about the send loops -/

/-- If every `sendto` in the window succeeds, the per-socket loop runs to
completion and returns `(0, i + n)`. -/
theorem send_from_all_ok (σ : Nat → SendOutcome) :
    ∀ n i, (∀ t, i ≤ t → t < i + n → σ t = SendOutcome.ok) →
      send_on_one_socket_from σ i n = (0, i + n) := by
  intro n
  induction n with
  | zero => intro i h; simp [send_on_one_socket_from]
  | succ m ih =>
    intro i h
    have h0 : σ i = SendOutcome.ok := h i (le_refl i) (by omega)
    simp only [send_on_one_socket_from, h0]
    rw [show i + (m + 1) = (i + 1) + m by omega]
    exact ih (i + 1) (fun t ht1 ht2 => h t (by omega) (by omega))

/-- If the first failing `sendto` is at loop index `j`, the per-socket loop
stops there and returns `(e, j)`. -/
theorem send_from_first_fail (σ : Nat → SendOutcome) (j e : Nat)
    (hj : σ j = SendOutcome.fail e)
    (hbefore : ∀ t, t < j → σ t = SendOutcome.ok) :
    ∀ n i, i ≤ j → j < i + n → send_on_one_socket_from σ i n = (e, j) := by
  intro n
  induction n with
  | zero => intro i h1 h2; omega
  | succ m ih =>
    intro i h1 h2
    by_cases hij : i = j
    · subst hij
      simp [send_on_one_socket_from, hj]
    · have hi : σ i = SendOutcome.ok := hbefore i (by omega)
      simp only [send_on_one_socket_from, hi]
      exact ih (i + 1) (by omega) (by omega)

/-- `send_on_one_socket` with an all-successful oracle completes all
`per` sends. -/
theorem send_all_ok (σ : Nat → SendOutcome) (per : Nat)
    (h : ∀ t, t < per → σ t = SendOutcome.ok) :
    send_on_one_socket σ per = (0, per) := by
  have := send_from_all_ok σ per 0 (fun t ht1 ht2 => h t (by omega))
  simpa [send_on_one_socket] using this

/-- `send_on_one_socket` with a first failure at index `j < per` stops
there with the failing errno. -/
theorem send_first_fail (σ : Nat → SendOutcome) (per j e : Nat)
    (hj : σ j = SendOutcome.fail e) (hjlt : j < per)
    (hbefore : ∀ t, t < j → σ t = SendOutcome.ok) :
    send_on_one_socket σ per = (e, j) :=
  send_from_first_fail σ j e hj hbefore per 0 (by omega) (by omega)

/-- When every send on every socket in the window succeeds, the scheduler
loop returns 0 and each socket issues exactly `per` sends. -/
theorem seq_from_all_ok (flag : Bool) (σ : Nat → Nat → SendOutcome)
    (q : Nat → Nat → QueryResult) (per : Nat) :
    ∀ m i, (∀ s, i ≤ s → s < i + m → ∀ t, t < per → σ s t = SendOutcome.ok) →
      (send_on_n_sockets_from flag σ q per i m).ret = 0 ∧
      (send_on_n_sockets_from flag σ q per i m).sent = List.replicate m per := by
  intro m
  induction m with
  | zero => intro i h; simp [send_on_n_sockets_from]
  | succ mm ih =>
    intro i h
    have hrow : send_on_one_socket (σ i) per = (0, per) :=
      send_all_ok (σ i) per (fun t ht => h i (le_refl i) (by omega) t ht)
    obtain ⟨ih1, ih2⟩ := ih (i + 1) (fun s hs1 hs2 => h s (by omega) (by omega))
    simp only [send_on_n_sockets_from, hrow]
    simp only [ne_eq, not_true_eq_false, if_neg, List.replicate_succ]
    constructor
    · simpa using ih1
    · simpa using ih2

/-- When the first failing send of the whole run is send `j` on socket `k`
(with non-zero errno `e`), the scheduler loop starting at socket `i ≤ k`
returns `e`; sockets before `k` issue all `per` sends, socket `k` issues
`j + 1` (the failing call included), and the remaining sockets issue
none. -/
theorem seq_from_first_fail (flag : Bool) (σ : Nat → Nat → SendOutcome)
    (q : Nat → Nat → QueryResult) (per k j e : Nat) (he : e ≠ 0)
    (hfail : σ k j = SendOutcome.fail e) (hj : j < per)
    (hrow : ∀ t, t < j → σ k t = SendOutcome.ok)
    (hbefore : ∀ s, s < k → ∀ t, t < per → σ s t = SendOutcome.ok) :
    ∀ m i, i ≤ k → k < i + m →
      (send_on_n_sockets_from flag σ q per i m).ret = e ∧
      (send_on_n_sockets_from flag σ q per i m).sent =
        List.replicate (k - i) per ++ (j + 1) :: List.replicate (i + m - k - 1) 0 := by
  intro m
  induction m with
  | zero => intro i h1 h2; omega
  | succ mm ih =>
    intro i h1 h2
    by_cases hik : i = k
    · subst hik
      have hrowi : send_on_one_socket (σ i) per = (e, j) :=
        send_first_fail (σ i) per j e hfail hj hrow
      simp only [send_on_n_sockets_from, hrowi]
      rw [if_pos (by simpa using he)]
      refine ⟨rfl, ?_⟩
      simp only [Nat.sub_self, List.replicate_zero, List.nil_append]
      rw [show i + (mm + 1) - i - 1 = mm by omega]
    · have hi : i < k := by omega
      have hrowi : send_on_one_socket (σ i) per = (0, per) :=
        send_all_ok (σ i) per (fun t ht => hbefore i hi t ht)
      obtain ⟨ihr, ihs⟩ := ih (i + 1) (by omega) (by omega)
      simp only [send_on_n_sockets_from, hrowi]
      simp only [ne_eq, not_true_eq_false, if_neg]
      refine ⟨by simpa using ihr, ?_⟩
      rw [show k - i = (k - (i + 1)) + 1 by omega, List.replicate_succ]
      simp only [List.cons_append]
      rw [show i + (mm + 1) - k - 1 = (i + 1) + mm - k - 1 by omega]
      simpa using ihs

/-! ### Claims about the probe scheduler -/

/-- C2: for every probe group and every socket index `k` at which a send
first fails (with non-zero errno `e`), the scheduler stops immediately:
sockets before `k` each complete all per-socket sends, no send is issued on
any socket after `k` (their issued-send entries are 0), and the errno of
the failing send is propagated upward as the scheduler's result. -/
theorem C2_first_failure_stops (flag : Bool) (σ : Nat → Nat → SendOutcome)
    (q : Nat → Nat → QueryResult) (n per k j e : Nat)
    (hk : k < n) (hj : j < per) (he : e ≠ 0)
    (hfail : σ k j = SendOutcome.fail e)
    (hrow : ∀ t, t < j → σ k t = SendOutcome.ok)
    (hbefore : ∀ s, s < k → ∀ t, t < per → σ s t = SendOutcome.ok) :
    (send_on_n_sockets_seq flag σ q n per).ret = e ∧
    (send_on_n_sockets_seq flag σ q n per).sent =
      List.replicate k per ++ (j + 1) :: List.replicate (n - k - 1) 0 := by
  have h := seq_from_first_fail flag σ q per k j e he hfail hj hrow hbefore n 0
    (by omega) (by omega)
  simpa [send_on_n_sockets_seq] using h

/-- Witness for C2: three sockets, two sends each, the very first send on
socket 1 fails with errno 5. -/
theorem C2_first_failure_stops_witness :
    (send_on_n_sockets_seq false
        (fun s _ => if s = 1 then SendOutcome.fail 5 else SendOutcome.ok)
        (fun _ _ => QueryResult.ok 0) 3 2).ret = 5 ∧
    (send_on_n_sockets_seq false
        (fun s _ => if s = 1 then SendOutcome.fail 5 else SendOutcome.ok)
        (fun _ _ => QueryResult.ok 0) 3 2).sent =
      List.replicate 1 2 ++ (0 + 1) :: List.replicate (3 - 1 - 1) 0 :=
  C2_first_failure_stops false
    (fun s _ => if s = 1 then SendOutcome.fail 5 else SendOutcome.ok)
    (fun _ _ => QueryResult.ok 0) 3 2 1 0 5 (by omega) (by omega) (by omega) rfl
    (fun t ht => absurd ht (by omega))
    (fun s hs t ht => by
      have hs0 : s = 0 := by omega
      subst hs0
      rfl)

/-- C5 as stated is false: on an all-successful run with 2 sockets and 3
sends each, the scheduler returns 0, not the full count 6. -/
theorem C5_counterexample :
    (send_on_n_sockets_seq false (fun _ _ => SendOutcome.ok)
        (fun _ _ => QueryResult.ok 0) 2 3).ret = 0 ∧
    (send_on_n_sockets_seq false (fun _ _ => SendOutcome.ok)
        (fun _ _ => QueryResult.ok 0) 2 3).ret ≠ 2 * 3 := by
  constructor
  · decide
  · decide

/-- C5 (amended): the scheduler's return value is 0 when every send
succeeds, and the errno of the first failing send otherwise; it is not a
packet count. -/
theorem C5_return_is_errno (flag : Bool) (σ : Nat → Nat → SendOutcome)
    (q : Nat → Nat → QueryResult) (n per : Nat) :
    ((∀ s t, s < n → t < per → σ s t = SendOutcome.ok) →
      (send_on_n_sockets_seq flag σ q n per).ret = 0) ∧
    (∀ k j e, k < n → j < per → e ≠ 0 → σ k j = SendOutcome.fail e →
      (∀ t, t < j → σ k t = SendOutcome.ok) →
      (∀ s, s < k → ∀ t, t < per → σ s t = SendOutcome.ok) →
      (send_on_n_sockets_seq flag σ q n per).ret = e) := by
  constructor
  · intro hok
    have h := seq_from_all_ok flag σ q per n 0 (fun s hs1 hs2 t ht => hok s t (by omega) ht)
    simpa [send_on_n_sockets_seq] using h.1
  · intro k j e hk hj he hfail hrow hbefore
    have h := seq_from_first_fail flag σ q per k j e he hfail hj hrow hbefore n 0
      (by omega) (by omega)
    simpa [send_on_n_sockets_seq] using h.1

/-- Witness for C5 (amended): an all-successful run returns 0; a run whose
very first send fails with errno 7 returns 7. -/
theorem C5_return_is_errno_witness :
    (send_on_n_sockets_seq false (fun _ _ => SendOutcome.ok)
        (fun _ _ => QueryResult.ok 0) 2 3).ret = 0 ∧
    (send_on_n_sockets_seq false
        (fun s _ => if s = 0 then SendOutcome.fail 7 else SendOutcome.ok)
        (fun _ _ => QueryResult.ok 0) 2 3).ret = 7 := by
  constructor
  · exact (C5_return_is_errno false (fun _ _ => SendOutcome.ok)
      (fun _ _ => QueryResult.ok 0) 2 3).1 (fun _ _ _ _ => rfl)
  · exact (C5_return_is_errno false
      (fun s _ => if s = 0 then SendOutcome.fail 7 else SendOutcome.ok)
      (fun _ _ => QueryResult.ok 0) 2 3).2 0 0 7 (by omega) (by omega) (by omega) rfl
      (fun t ht => absurd ht (by omega)) (fun s hs t ht => absurd hs (by omega))

/-- C9 as stated is false: with the packet count left at its default 0, the
run issues zero sends on every socket, not at least one. -/
theorem C9_counterexample :
    (send_on_n_sockets_seq false (fun _ _ => SendOutcome.ok)
        (fun _ _ => QueryResult.ok 0) 8 0).sent = List.replicate 8 0 ∧
    ¬(∀ s, s < 8 → 1 ≤ (send_on_n_sockets_seq false (fun _ _ => SendOutcome.ok)
        (fun _ _ => QueryResult.ok 0) 8 0).sent.getD s 0) := by
  constructor
  · decide
  · decide

/-- C9 (amended): when the per-socket packet count is left at its default
value 0, the scheduler visits every socket but issues zero sends on each;
no caller supplies one-send semantics. -/
theorem C9_zero_count_zero_sends (flag : Bool) (σ : Nat → Nat → SendOutcome)
    (q : Nat → Nat → QueryResult) (n : Nat) :
    (send_on_n_sockets_seq flag σ q n 0).ret = 0 ∧
    (send_on_n_sockets_seq flag σ q n 0).sent = List.replicate n 0 := by
  have h := seq_from_all_ok flag σ q 0 n 0 (fun s hs1 hs2 t ht => absurd ht (by omega))
  simpa [send_on_n_sockets_seq] using h

/-! ### Claims about group-size resolution and the run summary -/

/-- C3: for every explicitly supplied packet count `c` with `0 < c < 8`,
when the socket-group size is not explicitly set (so it is at its default
8), the resulting group size equals `c`: the run creates `c` sockets, each
issues `c` sends (on an all-successful run), and the printed total is
`c * c`. -/
theorem C3_group_size_clamped (c : Nat) (h1 : 0 < c) (h2 : c < 8)
    (t0 t1 : timeval) (flag : Bool) (σ : Nat → Nat → SendOutcome)
    (q : Nat → Nat → QueryResult) (hok : ∀ s t, σ s t = SendOutcome.ok) :
    resolve_nsockets false c 8 = c ∧
    (run_test t0 t1 flag σ q (resolve_nsockets false c 8) c).1.nsockets = c ∧
    (run_test t0 t1 flag σ q (resolve_nsockets false c 8) c).2.sent =
      List.replicate c c ∧
    (run_test t0 t1 flag σ q (resolve_nsockets false c 8) c).1.total_packets = c * c := by
  have hr : resolve_nsockets false c 8 = c := by
    unfold resolve_nsockets
    rw [if_pos ⟨rfl, by omega, h2⟩]
  have hs := seq_from_all_ok flag σ q c c 0 (fun s _ _ t _ => hok s t)
  refine ⟨hr, by rw [hr]; rfl, ?_, by rw [hr]; rfl⟩
  rw [hr]
  simpa [run_test, send_on_n_sockets_seq] using hs.2

/-- Witness for C3: count 2 with the group size unset resolves to 2 sockets
with 2 sends each and 4 total attempted packets. -/
theorem C3_group_size_clamped_witness :
    resolve_nsockets false 2 8 = 2 ∧
    (run_test ⟨0, 0⟩ ⟨0, 0⟩ false (fun _ _ => SendOutcome.ok)
        (fun _ _ => QueryResult.ok 0) (resolve_nsockets false 2 8) 2).1.nsockets = 2 ∧
    (run_test ⟨0, 0⟩ ⟨0, 0⟩ false (fun _ _ => SendOutcome.ok)
        (fun _ _ => QueryResult.ok 0) (resolve_nsockets false 2 8) 2).2.sent =
      List.replicate 2 2 ∧
    (run_test ⟨0, 0⟩ ⟨0, 0⟩ false (fun _ _ => SendOutcome.ok)
        (fun _ _ => QueryResult.ok 0) (resolve_nsockets false 2 8) 2).1.total_packets =
      2 * 2 :=
  C3_group_size_clamped 2 (by omega) (by omega) ⟨0, 0⟩ ⟨0, 0⟩ false
    (fun _ _ => SendOutcome.ok) (fun _ _ => QueryResult.ok 0) (fun _ _ => rfl)

/-- C4 as stated is false: with no explicit source, the group size left at
its default 8, and packet count 1, `main` clamps the group size down to the
count, so the run creates 1 socket (not 8) and reports 1 total attempted
packet (not 8). -/
theorem C4_counterexample :
    (main_run ⟨0, 0⟩ ⟨0, 0⟩ false (fun _ _ => SendOutcome.ok)
        (fun _ _ => QueryResult.ok 0) false false AddrFamily.inet AddrFamily.inet
        1 8).toOption.map (fun r => (r.1.nsockets, r.1.total_packets, r.2.sent)) =
      some (1, 1, [1]) ∧
    (1 : Nat) ≠ 8 := by
  constructor
  · rfl
  · decide

/-- C4 (amended): with no explicit source, the group size left at its
default 8, and packet count 1, the group size is clamped down to the packet
count: the run creates exactly 1 socket, sends exactly 1 probe on it, and
reports 1 total attempted packet. -/
theorem C4_count_one_single_socket (t0 t1 : timeval) (flag : Bool)
    (σ : Nat → Nat → SendOutcome) (q : Nat → Nat → QueryResult)
    (srcf dstf : AddrFamily) (hok : ∀ s t, σ s t = SendOutcome.ok) :
    (main_run t0 t1 flag σ q false false srcf dstf 1 8).toOption.map
      (fun r => (r.1.nsockets, r.1.total_packets, r.2.sent)) = some (1, 1, [1]) := by
  have hcond : ¬(false = true ∧ srcf ≠ dstf) := by simp
  have hres : resolve_nsockets false 1 8 = 1 := by decide
  have hsent : (run_test t0 t1 flag σ q 1 1).2.sent = [1] := by
    have hs := seq_from_all_ok flag σ q 1 1 0 (fun s _ _ t _ => hok s t)
    simpa [run_test, send_on_n_sockets_seq] using hs.2
  unfold main_run
  rw [if_neg hcond, hres]
  simp only [Except.toOption, Option.map_some]
  refine congrArg some ?_
  refine Prod.ext rfl (Prod.ext rfl ?_)
  exact hsent

/-- Witness for C4 (amended): the concrete all-successful run. -/
theorem C4_count_one_single_socket_witness :
    (main_run ⟨0, 0⟩ ⟨0, 1⟩ false (fun _ _ => SendOutcome.ok)
        (fun _ _ => QueryResult.ok 0) false false AddrFamily.inet AddrFamily.inet
        1 8).toOption.map (fun r => (r.1.nsockets, r.1.total_packets, r.2.sent)) =
      some (1, 1, [1]) :=
  C4_count_one_single_socket ⟨0, 0⟩ ⟨0, 1⟩ false (fun _ _ => SendOutcome.ok)
    (fun _ _ => QueryResult.ok 0) AddrFamily.inet AddrFamily.inet (fun _ _ => rfl)

/-- C6 as stated is false: when the first send on socket 2 (the 3rd of 8
sockets) fails, the printed total is still the full product
`opt_count * nsockets = 8`, not a count reflecting only the 2 completed
sockets. -/
theorem C6_counterexample :
    (run_test ⟨0, 0⟩ ⟨0, 0⟩ false
        (fun s _ => if s = 2 then SendOutcome.fail 5 else SendOutcome.ok)
        (fun _ _ => QueryResult.ok 0) 8 1).1.total_packets = 8 ∧
    (run_test ⟨0, 0⟩ ⟨0, 0⟩ false
        (fun s _ => if s = 2 then SendOutcome.fail 5 else SendOutcome.ok)
        (fun _ _ => QueryResult.ok 0) 8 1).2.sent = [1, 1, 1, 0, 0, 0, 0, 0] ∧
    (run_test ⟨0, 0⟩ ⟨0, 0⟩ false
        (fun s _ => if s = 2 then SendOutcome.fail 5 else SendOutcome.ok)
        (fun _ _ => QueryResult.ok 0) 8 1).1.total_packets ≠ 2 * 1 := by
  refine ⟨by decide, by decide, by decide⟩

/-- C6 (amended): when a send fails mid-run, the reported total attempted
packet count is still the full group-size-times-count product; only the
per-socket issued-send counts reflect the partial completion (full counts
before the failing socket, zero after it). -/
theorem C6_total_reported_full (t0 t1 : timeval) (flag : Bool)
    (σ : Nat → Nat → SendOutcome) (q : Nat → Nat → QueryResult)
    (n per k j e : Nat) (hk : k < n) (hj : j < per) (he : e ≠ 0)
    (hfail : σ k j = SendOutcome.fail e)
    (hrow : ∀ t, t < j → σ k t = SendOutcome.ok)
    (hbefore : ∀ s, s < k → ∀ t, t < per → σ s t = SendOutcome.ok) :
    (run_test t0 t1 flag σ q n per).1.total_packets = per * n ∧
    (run_test t0 t1 flag σ q n per).2.sent =
      List.replicate k per ++ (j + 1) :: List.replicate (n - k - 1) 0 := by
  refine ⟨rfl, ?_⟩
  have h := seq_from_first_fail flag σ q per k j e he hfail hj hrow hbefore n 0
    (by omega) (by omega)
  simpa [run_test, send_on_n_sockets_seq] using h.2

/-- Witness for C6 (amended): the 3rd of 8 sockets fails on its first send;
the printed total is still 8. -/
theorem C6_total_reported_full_witness :
    (run_test ⟨0, 0⟩ ⟨0, 0⟩ false
        (fun s _ => if s = 2 then SendOutcome.fail 9 else SendOutcome.ok)
        (fun _ _ => QueryResult.ok 0) 8 1).1.total_packets = 1 * 8 ∧
    (run_test ⟨0, 0⟩ ⟨0, 0⟩ false
        (fun s _ => if s = 2 then SendOutcome.fail 9 else SendOutcome.ok)
        (fun _ _ => QueryResult.ok 0) 8 1).2.sent =
      List.replicate 2 1 ++ (0 + 1) :: List.replicate (8 - 2 - 1) 0 :=
  C6_total_reported_full ⟨0, 0⟩ ⟨0, 0⟩ false
    (fun s _ => if s = 2 then SendOutcome.fail 9 else SendOutcome.ok)
    (fun _ _ => QueryResult.ok 0) 8 1 2 0 9 (by omega) (by omega) (by omega) rfl
    (fun t ht => absurd ht (by omega))
    (fun s hs t ht => by
      interval_cases s <;> rfl)

/-! ### Claims about timing and pre-run validation -/

/-- C7 as stated is false: with a microsecond difference of 1500 the
reported elapsed value is 1 (the fraction is discarded by the integer
division `usec_sub(&end, &start) / 1000`), not the fraction-preserving
1500/1000 = 1.5 milliseconds. -/
theorem C7_counterexample :
    usec_sub ⟨0, 1500⟩ ⟨0, 0⟩ = 1500 ∧
    (run_test ⟨0, 0⟩ ⟨0, 1500⟩ false (fun _ _ => SendOutcome.ok)
        (fun _ _ => QueryResult.ok 0) 1 1).1.tdiff = 1 ∧
    ¬(((run_test ⟨0, 0⟩ ⟨0, 1500⟩ false (fun _ _ => SendOutcome.ok)
        (fun _ _ => QueryResult.ok 0) 1 1).1.tdiff : ℚ) =
      ((usec_sub ⟨0, 1500⟩ ⟨0, 0⟩ : Int) : ℚ) / 1000) := by
  have h1 : (run_test ⟨0, 0⟩ ⟨0, 1500⟩ false (fun _ _ => SendOutcome.ok)
      (fun _ _ => QueryResult.ok 0) 1 1).1.tdiff = 1 := by decide
  have h2 : usec_sub ⟨0, 1500⟩ ⟨0, 0⟩ = 1500 := by decide
  refine ⟨h2, h1, ?_⟩
  rw [h1, h2]
  norm_num

/-- C7 (amended): for timestamps with a non-negative microsecond
difference, the reported elapsed value is the microsecond-precision
difference divided by 1000 with the fractional milliseconds discarded
(C integer division, so the reported value is the floor of the exact
millisecond quotient, within one millisecond below it). -/
theorem C7_elapsed_truncated (t0 t1 : timeval) (flag : Bool)
    (σ : Nat → Nat → SendOutcome) (q : Nat → Nat → QueryResult)
    (n per : Nat) (h : 0 ≤ usec_sub t1 t0) :
    usec_sub t1 t0 =
      (t1.tv_sec * 1000000 + t1.tv_usec) - (t0.tv_sec * 1000000 + t0.tv_usec) ∧
    (run_test t0 t1 flag σ q n per).1.tdiff = Int.tdiv (usec_sub t1 t0) 1000 ∧
    1000 * (run_test t0 t1 flag σ q n per).1.tdiff ≤ usec_sub t1 t0 ∧
    usec_sub t1 t0 < 1000 * (run_test t0 t1 flag σ q n per).1.tdiff + 1000 := by
  have htd : (run_test t0 t1 flag σ q n per).1.tdiff =
      Int.tdiv (usec_sub t1 t0) 1000 := rfl
  refine ⟨by unfold usec_sub; ring, htd, ?_, ?_⟩
  · rw [htd, Int.tdiv_eq_ediv h (by norm_num)]
    omega
  · rw [htd, Int.tdiv_eq_ediv h (by norm_num)]
    omega

/-- Witness for C7 (amended): a 2500 microsecond difference is reported as
2 milliseconds, which brackets 2500 within [2000, 3000). -/
theorem C7_elapsed_truncated_witness :
    usec_sub ⟨0, 2500⟩ ⟨0, 0⟩ =
      ((0 : Int) * 1000000 + 2500) - ((0 : Int) * 1000000 + 0) ∧
    (run_test ⟨0, 0⟩ ⟨0, 2500⟩ false (fun _ _ => SendOutcome.ok)
        (fun _ _ => QueryResult.ok 0) 1 1).1.tdiff =
      Int.tdiv (usec_sub ⟨0, 2500⟩ ⟨0, 0⟩) 1000 ∧
    1000 * (run_test ⟨0, 0⟩ ⟨0, 2500⟩ false (fun _ _ => SendOutcome.ok)
        (fun _ _ => QueryResult.ok 0) 1 1).1.tdiff ≤ usec_sub ⟨0, 2500⟩ ⟨0, 0⟩ ∧
    usec_sub ⟨0, 2500⟩ ⟨0, 0⟩ < 1000 * (run_test ⟨0, 0⟩ ⟨0, 2500⟩ false
        (fun _ _ => SendOutcome.ok) (fun _ _ => QueryResult.ok 0) 1 1).1.tdiff + 1000 :=
  C7_elapsed_truncated ⟨0, 0⟩ ⟨0, 2500⟩ false (fun _ _ => SendOutcome.ok)
    (fun _ _ => QueryResult.ok 0) 1 1 (by decide)

/-- C8: for every combination of explicitly supplied source and destination
addresses whose families differ (IPv4 vs IPv6 in either direction), the run
is rejected with the family-mismatch error before `run_test` — and hence
before any socket is created. -/
theorem C8_family_mismatch_rejected (t0 t1 : timeval) (flag : Bool)
    (σ : Nat → Nat → SendOutcome) (q : Nat → Nat → QueryResult)
    (num_sock_set : Bool) (srcf dstf : AddrFamily) (opt_count nsockets : Nat)
    (hne : srcf ≠ dstf) :
    main_run t0 t1 flag σ q true num_sock_set srcf dstf opt_count nsockets =
      Except.error MainError.familyMismatch := by
  unfold main_run
  rw [if_pos ⟨rfl, hne⟩]

/-- Witness for C8: both mismatched family combinations (IPv4 source with
IPv6 destination and vice versa) are rejected. -/
theorem C8_family_mismatch_rejected_witness :
    main_run ⟨0, 0⟩ ⟨0, 0⟩ false (fun _ _ => SendOutcome.ok)
        (fun _ _ => QueryResult.ok 0) true false AddrFamily.inet AddrFamily.inet6
        1 8 = Except.error MainError.familyMismatch ∧
    main_run ⟨0, 0⟩ ⟨0, 0⟩ false (fun _ _ => SendOutcome.ok)
        (fun _ _ => QueryResult.ok 0) true false AddrFamily.inet6 AddrFamily.inet
        1 8 = Except.error MainError.familyMismatch :=
  ⟨C8_family_mismatch_rejected ⟨0, 0⟩ ⟨0, 0⟩ false (fun _ _ => SendOutcome.ok)
      (fun _ _ => QueryResult.ok 0) false AddrFamily.inet AddrFamily.inet6 1 8
      (by decide),
   C8_family_mismatch_rejected ⟨0, 0⟩ ⟨0, 0⟩ false (fun _ _ => SendOutcome.ok)
      (fun _ _ => QueryResult.ok 0) false AddrFamily.inet6 AddrFamily.inet 1 8
      (by decide)⟩
